import Mathlib

/-!
# Verification of the http-react request orchestration engine

This development embeds, in Lean 4, the client-side request orchestration
engine documented by the http-react documentation site: identity derivation,
URL parameter substitution, the per-identity request state machine
(deduplication, supersession/cancellation, retry, cache-age short-circuit),
the one-shot resolve/error side channels and local optimistic mutation.

The repository under verification is the documentation website; the engine
implementation itself is not among its sources, so the executable
definitions below are modelled from the specification document (and the
behaviour documented in `src/pages/docs/*.mdx`), as noted on each
definition.
-/

namespace HttpReact

/-- Modelled from the spec: a serializable value (request ids "can be
anything that can be serialized": strings, numbers, booleans, null,
structured objects). -/
inductive SerialVal where
  | null : SerialVal
  | bool (b : Bool) : SerialVal
  | num (n : Int) : SerialVal
  | str (s : String) : SerialVal
  | obj (fields : List (String × SerialVal)) : SerialVal

/-- Modelled from the spec: a ConfigurationWarning, the non-fatal
diagnostic raised when a URL placeholder is missing from the parameter
mapping (the console warning described in the `params` documentation). -/
structure ConfigWarning where
  missingParam : String
deriving DecidableEq

/-- Lookup of a parameter by name in the parameter mapping (an association
list, first binding wins). -/
def lookupParam : List (String × String) → String → Option String
  | [], _ => none
  | (k, v) :: rest, key => if k = key then some v else lookupParam rest key

/-- Does the character list start with the given character? -/
def startsWithChar (c : Char) : List Char → Bool
  | [] => false
  | a :: _ => a = c

/-- Does the character list end with the given character? -/
def endsWithChar (c : Char) (l : List Char) : Bool :=
  match l.getLast? with
  | some a => a = c
  | none => false

/-- Split a character list at the first occurrence of `c`; the second
component keeps the `c` and everything after it. -/
def breakAtChar (c : Char) : List Char → List Char × List Char
  | [] => ([], [])
  | a :: rest =>
      if a = c then ([], a :: rest)
      else
        let p := breakAtChar c rest
        (a :: p.1, p.2)

/-- Split a character list on every occurrence of `c` (the pieces do not
contain `c`; `n` separators yield `n + 1` pieces). -/
def splitOnChar (c : Char) : List Char → List (List Char)
  | [] => [[]]
  | a :: rest =>
      let r := splitOnChar c rest
      if a = c then [] :: r
      else
        match r with
        | [] => [[a]]
        | s :: ss => (a :: s) :: ss

/-- Join character-list pieces with the separator `c` between them. -/
def joinWithChar (c : Char) : List (List Char) → List Char
  | [] => []
  | [s] => s
  | s :: ss => s ++ c :: joinWithChar c ss

/-- Modelled from the spec: substitution of one `/`-separated URL segment.
A segment of the form `[name]` or `:name` is replaced by the mapped value
of `name`; a referenced placeholder missing from the mapping is left
unsubstituted and raises one non-fatal ConfigurationWarning. The
implementation (helper of the http-react package) is not in this
repository. -/
def substSegment (params : List (String × String)) (seg : List Char) :
    List Char × List ConfigWarning :=
  if startsWithChar '[' seg && endsWithChar ']' seg then
    let name : String := ⟨(seg.drop 1).dropLast⟩
    match lookupParam params name with
    | some v => (v.data, [])
    | none => (seg, [⟨name⟩])
  else if startsWithChar ':' seg then
    let name : String := ⟨seg.drop 1⟩
    match lookupParam params name with
    | some v => (v.data, [])
    | none => (seg, [⟨name⟩])
  else (seg, [])

/-- Split a URL into its path part and its query-string suffix (the part
from the first `?` on), which is exempt from parameter substitution. -/
def splitQuery (url : String) : List Char × List Char :=
  breakAtChar '?' url.data

/-- Modelled from the spec: `setURLParams` parses URL params present in a
string, replacing both `[name]` and `:name` placeholders (params are
separated using `/`); it returns the substituted URL together with the
ConfigurationWarnings for placeholders missing from the mapping. The
implementation (exported helper `setURLParams` of the http-react package)
is not in this repository. -/
def setURLParams (url : String) (params : List (String × String)) :
    String × List ConfigWarning :=
  let pq := splitQuery url
  let results := (splitOnChar '/' pq.1).map (substSegment params)
  (⟨joinWithChar '/' (results.map Prod.fst) ++ pq.2⟩,
   (results.map Prod.snd).flatten)

/-- Modelled from the spec: the recognized request configuration options of
the engine that the verified claims depend on, with their documented
defaults (`attempts` defaults to 1 meaning no retry, `attemptInterval` to
2, `maxCacheAge` to 0, `cancelOnChange` to true). -/
structure RequestConfig where
  method : String := "GET"
  url : String := "/"
  params : List (String × String) := []
  id : Option SerialVal := none
  maxCacheAge : Nat := 0
  attempts : Nat := 1
  attemptInterval : Nat := 2
  cancelOnChange : Bool := true

/-- The default request configuration (every option at its default). -/
def defaultConfig : RequestConfig := {}

/-- Modelled from the spec: the Identity Resolver. If `config.id` is
provided it is returned verbatim; otherwise the identity is
`"METHOD URL"` built from the method and the raw URL template (path
parameters are substituted into the dispatched URL, not into the id). -/
def resolve (cfg : RequestConfig) : SerialVal :=
  match cfg.id with
  | some v => v
  | none => .str (cfg.method ++ " " ++ cfg.url)

/-- The URL actually dispatched for a configuration: the template with its
path parameters substituted. -/
def dispatchedUrlOf (cfg : RequestConfig) : String :=
  (setURLParams cfg.url cfg.params).1

/-- Modelled from the spec: the request phase state machine
`idle → pending → resolved or failed` (resolved/failed can re-enter
pending via a new dispatch). -/
inductive Phase where
  | idle : Phase
  | pending : Phase
  | resolved : Phase
  | failed : Phase
deriving DecidableEq

/-- Modelled from the spec: the shared `RequestState` (one per identity):
data, error, phase, transport metadata, cache expiry, attempt counter,
online flag and the cancellation ownership token of the in-flight call. -/
structure RequestState where
  data : Option SerialVal := none
  error : Option SerialVal := none
  phase : Phase := .idle
  statusCode : Option Nat := none
  requestStart : Option Nat := none
  requestEnd : Option Nat := none
  expiresAt : Option Nat := none
  attemptCount : Nat := 0
  online : Bool := true
  activeController : Option Nat := none

/-- Modelled from the spec: the engine bookkeeping around one identity's
`RequestState`: the tokens of transport calls started and not yet
cancelled or completed (`inflight`), a fresh-token source, the
call-counter transport stub (`transportCalls`, `callTimes`), the armed
retry timer, the emitted ConfigurationWarnings, the dispatched URL, the
resolution-generation counter and the one-shot side-channel markers and
run counters for the resolved/failed callback classes. -/
structure EngineState where
  st : RequestState := {}
  inflight : List Nat := []
  nextToken : Nat := 0
  transportCalls : Nat := 0
  callTimes : List Nat := []
  retryAt : Option Nat := none
  warnings : List ConfigWarning := []
  dispatchedUrl : String := ""
  gen : Nat := 0
  firedResolve : Bool := false
  firedFailed : Bool := false
  resolveRuns : Nat := 0
  failedRuns : Nat := 0

/-- The engine state of a freshly referenced identity: lazily created with
`phase = idle` and no transport activity. -/
def initState : EngineState := {}

/-- Modelled from the spec: the outcome a transport call eventually
delivers (resolution value plus status code, or a failure value). -/
inductive Outcome where
  | success (v : SerialVal) (status : Nat) : Outcome
  | failure (e : SerialVal) : Outcome

/-- The kinds of dispatch triggers: a manual call, or the automatic
triggers (mount, window focus, reconnect, refresh timer). -/
inductive TriggerKind where
  | manual : TriggerKind
  | mount : TriggerKind
  | focus : TriggerKind
  | reconnect : TriggerKind
  | refreshTimer : TriggerKind
deriving DecidableEq

/-- Whether a trigger kind is automatic (everything except a manual
call). -/
def TriggerKind.isAutomatic : TriggerKind → Bool
  | .manual => false
  | _ => true

/-- Modelled from the spec: the events serialized onto the engine's single
logical event queue for one identity: dispatch triggers, a configuration
change (data dependency), the retry timer firing, a transport completion
carrying its ownership token, and a subscriber notification pass (a
re-render or re-subscription running the one-shot side channels). -/
inductive Event where
  | trigger (k : TriggerKind) (t : Nat) : Event
  | propsChange (t : Nat) : Event
  | retryFire (t : Nat) : Event
  | complete (tok : Nat) (out : Outcome) (t : Nat) : Event
  | notifyCheck (t : Nat) : Event

/-- Modelled from the spec: starting a dispatch at time `t`: substitute the
URL parameters (recording any ConfigurationWarnings, the dispatch still
proceeds), move to `pending`, hand a fresh cancellation token to the
transport call, count the transport invocation, clear any armed retry
timer, open a new resolution generation and reset the one-shot
side-channel markers. -/
def startDispatch (cfg : RequestConfig) (s : EngineState) (t : Nat) :
    EngineState :=
  let uw := setURLParams cfg.url cfg.params
  { s with
    st := { s.st with
      phase := .pending
      requestStart := some t
      activeController := some s.nextToken }
    inflight := s.inflight ++ [s.nextToken]
    nextToken := s.nextToken + 1
    transportCalls := s.transportCalls + 1
    callTimes := s.callTimes ++ [t]
    retryAt := none
    warnings := s.warnings ++ uw.2
    dispatchedUrl := uw.1
    gen := s.gen + 1
    firedResolve := false
    firedFailed := false }

/-- Modelled from the spec: the cache-first freshness check: cached `data`
exists and the current time is before `expiresAt`. -/
def isFresh (s : EngineState) (t : Nat) : Bool :=
  s.st.data.isSome &&
    match s.st.expiresAt with
    | some e => decide (t < e)
    | none => false

/-- Modelled from the spec: one step of the engine for one identity.
A trigger is folded into an existing pending execution (never duplicated);
an automatic trigger is short-circuited while cached data is fresh; a
configuration change while pending cancels the in-flight call before
starting the new one (`cancelOnChange`); a completion is applied only if
its token is still the active controller (a superseded call's late
completion is discarded); a failure increments `attemptCount` and arms a
retry after `attemptInterval` while attempts remain, else sets
`online = false`; a success resets `attemptCount`, computes the cache
expiry from `maxCacheAge` and clears the controller; a notification pass
fires each one-shot side channel at most once per resolution generation. -/
def step (cfg : RequestConfig) (s : EngineState) : Event → EngineState
  | .trigger k t =>
      if s.st.phase = .pending then s
      else if k.isAutomatic && isFresh s t then s
      else startDispatch cfg s t
  | .propsChange t =>
      if s.st.phase = .pending then
        if cfg.cancelOnChange then
          let cancelled : EngineState :=
            { s with
              inflight :=
                match s.st.activeController with
                | some tk => s.inflight.erase tk
                | none => s.inflight
              st := { s.st with activeController := none } }
          startDispatch cfg cancelled t
        else s
      else startDispatch cfg s t
  | .retryFire t =>
      if s.retryAt = some t then
        if s.st.phase = .pending then s else startDispatch cfg s t
      else s
  | .complete tok out t =>
      if s.st.activeController = some tok then
        match out with
        | .success v status =>
            { s with
              st := { s.st with
                data := some v
                error := none
                phase := .resolved
                statusCode := some status
                requestEnd := some t
                expiresAt :=
                  if cfg.maxCacheAge > 0 then some (t + cfg.maxCacheAge)
                  else none
                attemptCount := 0
                online := true
                activeController := none }
              inflight := s.inflight.erase tok
              retryAt := none }
        | .failure e =>
            let n := s.st.attemptCount + 1
            { s with
              st := { s.st with
                error := some e
                phase := .failed
                requestEnd := some t
                attemptCount := n
                online := decide (n < cfg.attempts)
                activeController := none }
              inflight := s.inflight.erase tok
              retryAt :=
                if n < cfg.attempts then some (t + cfg.attemptInterval)
                else none }
      else { s with inflight := s.inflight.erase tok }
  | .notifyCheck _ =>
      if s.st.phase = .resolved && !s.firedResolve then
        { s with firedResolve := true, resolveRuns := s.resolveRuns + 1 }
      else if s.st.phase = .failed && !s.firedFailed then
        { s with firedFailed := true, failedRuns := s.failedRuns + 1 }
      else s

/-- Run the engine over a list of queued events. -/
def run (cfg : RequestConfig) (s : EngineState) (evs : List Event) :
    EngineState :=
  evs.foldl (step cfg) s

/-- Modelled from the spec: `mutateData` (the store's local mutation):
apply a pure updater to `data` synchronously, without any network call of
its own; when `revalidateAfter` is set, follow with exactly one standard
dispatch trigger for the identity. -/
def mutateData (cfg : RequestConfig) (s : EngineState)
    (updater : Option SerialVal → SerialVal) (revalidateAfter : Bool)
    (t : Nat) : EngineState :=
  let s1 : EngineState :=
    { s with st := { s.st with data := some (updater s.st.data) } }
  if revalidateAfter then step cfg s1 (.trigger .manual t) else s1

/-- The engine states reachable from a freshly created identity entry by
queued events. -/
inductive Reachable (cfg : RequestConfig) : EngineState → Prop where
  | init : Reachable cfg initState
  | next (s : EngineState) (ev : Event) :
      Reachable cfg s → Reachable cfg (step cfg s ev)

/-- The dispatcher's structural invariant: while `pending` the active
controller token is exactly the one outstanding transport call; in any
other phase there is no outstanding transport call and no controller. -/
def GoodState (s : EngineState) : Prop :=
  (s.st.phase = .pending →
    ∃ tk, s.st.activeController = some tk ∧ s.inflight = [tk]) ∧
  (s.st.phase ≠ .pending → s.inflight = [] ∧ s.st.activeController = none)

/-- The side-channel invariant: each one-shot callback class has run at
most once per resolution generation, with strict slack while a generation
is still pending or its class has not fired yet. -/
def OnceState (s : EngineState) : Prop :=
  s.resolveRuns ≤ s.gen ∧ s.failedRuns ≤ s.gen ∧
  (s.st.phase = .pending → s.resolveRuns < s.gen ∧ s.failedRuns < s.gen) ∧
  (s.st.phase = .resolved → s.firedResolve = false → s.resolveRuns < s.gen) ∧
  (s.st.phase = .failed → s.firedFailed = false → s.failedRuns < s.gen)

/-- The configuration of the 3-attempt retry scenario: identity
`GET /x` with an attempt budget of 3 and the default `attemptInterval`
of 2 against an always-failing transport. -/
def cfgAttempts : RequestConfig := { url := "/x", attempts := 3 }

/-- The 3-attempt failing run: one manual trigger, each transport call
failing at the time it was dispatched, each armed retry timer firing at
its scheduled time. -/
def attemptsRun : EngineState :=
  run cfgAttempts initState
    [.trigger .manual 0, .complete 0 (.failure .null) 0,
     .retryFire 2, .complete 1 (.failure .null) 2,
     .retryFire 4, .complete 2 (.failure .null) 4]

/-- The supersession scenario: a dispatch (token 0) is in flight when the
request configuration changes, so it is cancelled and a new dispatch
(token 1) starts. -/
def supersedeRun : EngineState :=
  run defaultConfig initState [.trigger .manual 0, .propsChange 1]

/-- The configuration whose URL template references a `[id]` placeholder
that is missing from the (empty) parameter mapping. -/
def cfgMissingParam : RequestConfig := { url := "/todos/[id]" }

/-- A configuration with a positive `maxCacheAge` policy (data valid for 5
time units after completion). -/
def cfgAge : RequestConfig := { maxCacheAge := 5 }

/-- A probe state with one dispatch in flight: `pending`, controller token
0 outstanding. -/
def pendingProbe : EngineState :=
  { st := { phase := .pending, requestStart := some 0,
            activeController := some 0 },
    inflight := [0], nextToken := 1, transportCalls := 1, callTimes := [0],
    gen := 1 }

/-- The `GET /todos/[id]` configuration with `params = {id: 3}` from the
documentation's identity example. -/
def todoCfg : RequestConfig :=
  { method := "GET", url := "/todos/[id]", params := [("id", "3")] }

/-- A run that resolves once and has already fired the resolved side
channel: trigger, successful completion, one notification pass. -/
def resolvedFiredRun : EngineState :=
  step defaultConfig
    (step defaultConfig
      (step defaultConfig initState (.trigger .manual 0))
      (.complete 0 (.success .null 200) 1))
    (.notifyCheck 1)

lemma goodState_init : GoodState initState :=
  ⟨fun h => absurd h (by decide), fun _ => ⟨rfl, rfl⟩⟩

lemma goodState_startDispatch (cfg : RequestConfig) (s : EngineState)
    (t : Nat) (h : s.inflight = []) : GoodState (startDispatch cfg s t) := by
  constructor
  · intro _
    exact ⟨s.nextToken, rfl, by simp [startDispatch, h]⟩
  · intro hp
    exact absurd rfl hp

lemma goodState_step (cfg : RequestConfig) (s : EngineState) (ev : Event)
    (h : GoodState s) : GoodState (step cfg s ev) := by
  obtain ⟨hpend, hidle⟩ := h
  cases ev with
  | trigger k t =>
      by_cases hp : s.st.phase = .pending
      · simpa [step, hp] using ⟨hpend, hidle⟩
      · by_cases hf : (k.isAutomatic && isFresh s t) = true
        · simpa [step, hp, hf] using ⟨hpend, hidle⟩
        · simp only [step, if_neg hp, hf, if_false, Bool.not_eq_true] at *
          simpa [hf] using goodState_startDispatch cfg s t (hidle hp).1
  | propsChange t =>
      by_cases hp : s.st.phase = .pending
      · obtain ⟨tk, hc, hi⟩ := hpend hp
        by_cases hcc : cfg.cancelOnChange = true
        · simp only [step, if_pos hp, hcc, if_true]
          exact goodState_startDispatch cfg _ t (by simp [hc, hi])
        · simp only [Bool.not_eq_true] at hcc
          simpa [step, hp, hcc] using ⟨hpend, hidle⟩
      · simp only [step, if_neg hp]
        exact goodState_startDispatch cfg s t (hidle hp).1
  | retryFire t =>
      by_cases hr : s.retryAt = some t
      · by_cases hp : s.st.phase = .pending
        · simpa [step, hr, hp] using ⟨hpend, hidle⟩
        · simp only [step, if_pos hr, if_neg hp]
          exact goodState_startDispatch cfg s t (hidle hp).1
      · simpa [step, hr] using ⟨hpend, hidle⟩
  | complete tok out t =>
      by_cases hc : s.st.activeController = some tok
      · by_cases hp : s.st.phase = .pending
        · obtain ⟨tk, hc2, hi⟩ := hpend hp
          have htk : tk = tok := by
            rw [hc] at hc2
            exact (Option.some_inj.mp hc2).symm
          subst htk
          cases out with
          | success v status =>
              refine ⟨fun hx => absurd hx (by simp [step, hc]), fun _ => ?_⟩
              simp [step, hc, hi]
          | failure e =>
              refine ⟨fun hx => absurd hx (by simp [step, hc]), fun _ => ?_⟩
              simp [step, hc, hi]
        · exact absurd hc (by simp [(hidle hp).2])
      · have hi2 : s.inflight.erase tok = s.inflight ∨
            s.st.phase ≠ .pending := by
          by_cases hp : s.st.phase = .pending
          · obtain ⟨tk, hc2, hi⟩ := hpend hp
            left
            have : tk ≠ tok := fun hx => hc (hx ▸ hc2)
            simp [hi, List.erase_cons, this]
          · exact Or.inr hp
        constructor
        · intro hx
          have hx2 : s.st.phase = .pending := by
            simpa [step, hc] using hx
          obtain ⟨tk, hc2, hi⟩ := hpend hx2
          refine ⟨tk, by simpa [step, hc] using hc2, ?_⟩
          rcases hi2 with he | hnp
          · have hne : ¬tok = tk := fun hxx => hc (hxx ▸ hc2)
            simp [step, hc, he, hi, hne]
          · exact absurd hx2 hnp
        · intro hx
          have hx2 : s.st.phase ≠ .pending := by
            simpa [step, hc] using hx
          refine ⟨?_, by simpa [step, hc] using (hidle hx2).2⟩
          simp [step, hc, (hidle hx2).1]
  | notifyCheck t =>
      by_cases h1 : (s.st.phase = .resolved && !s.firedResolve) = true
      · simpa [step, h1] using ⟨hpend, hidle⟩
      · by_cases h2 : (s.st.phase = .failed && !s.firedFailed) = true
        · simpa [step, h1, h2] using ⟨hpend, hidle⟩
        · simpa [step, h1, h2] using ⟨hpend, hidle⟩

lemma goodState_reachable (cfg : RequestConfig) (s : EngineState)
    (h : Reachable cfg s) : GoodState s := by
  induction h with
  | init => exact goodState_init
  | next s ev _ ih => exact goodState_step cfg s ev ih

lemma goodState_length_le_one (s : EngineState) (h : GoodState s) :
    s.inflight.length ≤ 1 := by
  by_cases hp : s.st.phase = .pending
  · obtain ⟨tk, _, hi⟩ := h.1 hp
    simp [hi]
  · simp [(h.2 hp).1]

lemma onceState_init : OnceState initState := by
  refine ⟨Nat.le.refl, Nat.le.refl, ?_, ?_, ?_⟩ <;> intro h
  · exact absurd h (by decide)
  · exact fun _ => absurd h (by decide)
  · exact fun _ => absurd h (by decide)

lemma onceState_startDispatch (cfg : RequestConfig) (s : EngineState)
    (t : Nat) (h : OnceState s) : OnceState (startDispatch cfg s t) := by
  obtain ⟨h1, h2, _, _, _⟩ := h
  refine ⟨Nat.le_succ_of_le h1, Nat.le_succ_of_le h2, ?_, ?_, ?_⟩
  · exact fun _ => ⟨Nat.lt_succ_of_le h1, Nat.lt_succ_of_le h2⟩
  · intro hx
    exact absurd hx (by simp [startDispatch])
  · intro hx
    exact absurd hx (by simp [startDispatch])

lemma onceState_step (cfg : RequestConfig) (s : EngineState) (ev : Event)
    (hg : GoodState s) (h : OnceState s) : OnceState (step cfg s ev) := by
  obtain ⟨h1, h2, h3, h4, h5⟩ := h
  cases ev with
  | trigger k t =>
      by_cases hp : s.st.phase = .pending
      · simpa [step, hp] using ⟨h1, h2, h3, h4, h5⟩
      · by_cases hf : (k.isAutomatic && isFresh s t) = true
        · simpa [step, hp, hf] using ⟨h1, h2, h3, h4, h5⟩
        · simp only [step, if_neg hp, hf, if_false]
          exact onceState_startDispatch cfg s t ⟨h1, h2, h3, h4, h5⟩
  | propsChange t =>
      by_cases hp : s.st.phase = .pending
      · by_cases hcc : cfg.cancelOnChange = true
        · simp only [step, if_pos hp, hcc, if_true]
          exact onceState_startDispatch cfg _ t ⟨h1, h2, h3, h4, h5⟩
        · simp only [Bool.not_eq_true] at hcc
          simpa [step, hp, hcc] using ⟨h1, h2, h3, h4, h5⟩
      · simp only [step, if_neg hp]
        exact onceState_startDispatch cfg s t ⟨h1, h2, h3, h4, h5⟩
  | retryFire t =>
      by_cases hr : s.retryAt = some t
      · by_cases hp : s.st.phase = .pending
        · simpa [step, hr, hp] using ⟨h1, h2, h3, h4, h5⟩
        · simp only [step, if_pos hr, if_neg hp]
          exact onceState_startDispatch cfg s t ⟨h1, h2, h3, h4, h5⟩
      · simpa [step, hr] using ⟨h1, h2, h3, h4, h5⟩
  | complete tok out t =>
      by_cases hc : s.st.activeController = some tok
      · have hp : s.st.phase = .pending := by
          by_contra hp
          exact absurd hc (by simp [(hg.2 hp).2])
        obtain ⟨hr1, hr2⟩ := h3 hp
        cases out with
        | success v status =>
            refine ⟨?_, ?_, ?_, ?_, ?_⟩ <;> simp [step, hc]
            · exact h1
            · exact h2
            · exact fun _ => hr1
        | failure e =>
            refine ⟨?_, ?_, ?_, ?_, ?_⟩ <;> simp [step, hc]
            · exact h1
            · exact h2
            · exact fun _ => hr2
      · simpa [step, hc] using ⟨h1, h2, h3, h4, h5⟩
  | notifyCheck t =>
      by_cases hb1 : (s.st.phase = .resolved && !s.firedResolve) = true
      · simp only [Bool.and_eq_true, decide_eq_true_eq,
          Bool.not_eq_true'] at hb1
        obtain ⟨hph, hfr⟩ := hb1
        have hlt := h4 hph hfr
        refine ⟨?_, ?_, ?_, ?_, ?_⟩ <;> simp [step, hph, hfr]
        · exact hlt
        · exact h2
      · by_cases hb2 : (s.st.phase = .failed && !s.firedFailed) = true
        · simp only [Bool.and_eq_true, decide_eq_true_eq,
            Bool.not_eq_true'] at hb2
          obtain ⟨hph, hff⟩ := hb2
          have hlt := h5 hph hff
          refine ⟨?_, ?_, ?_, ?_, ?_⟩ <;> simp [step, hb1, hph, hff]
          · exact h1
          · exact hlt
        · simpa [step, hb1, hb2] using ⟨h1, h2, h3, h4, h5⟩

lemma onceState_reachable (cfg : RequestConfig) (s : EngineState)
    (h : Reachable cfg s) : OnceState s := by
  induction h with
  | init => exact onceState_init
  | next s ev hs ih =>
      exact onceState_step cfg s ev (goodState_reachable cfg s hs) ih

/-- Every engine step either begins a new resolution generation (and then
both one-shot markers are reset), or leaves the generation unchanged (and
then a marker that was set stays set). -/
lemma step_gen_dichotomy (cfg : RequestConfig) (s : EngineState)
    (ev : Event) :
    ((step cfg s ev).gen = s.gen + 1 ∧
      (step cfg s ev).firedResolve = false ∧
      (step cfg s ev).firedFailed = false) ∨
    ((step cfg s ev).gen = s.gen ∧
      (s.firedResolve = true → (step cfg s ev).firedResolve = true) ∧
      (s.firedFailed = true → (step cfg s ev).firedFailed = true)) := by
  cases ev with
  | trigger k t =>
      by_cases hp : s.st.phase = .pending
      · exact Or.inr (by simp [step, hp])
      · by_cases hf : (k.isAutomatic && isFresh s t) = true
        · exact Or.inr (by simp [step, hp, hf])
        · exact Or.inl (by simp [step, hp, hf, startDispatch])
  | propsChange t =>
      by_cases hp : s.st.phase = .pending
      · by_cases hcc : cfg.cancelOnChange = true
        · exact Or.inl (by simp [step, hp, hcc, startDispatch])
        · simp only [Bool.not_eq_true] at hcc
          exact Or.inr (by simp [step, hp, hcc])
      · exact Or.inl (by simp [step, hp, startDispatch])
  | retryFire t =>
      by_cases hr : s.retryAt = some t
      · by_cases hp : s.st.phase = .pending
        · exact Or.inr (by simp [step, hr, hp])
        · exact Or.inl (by simp [step, hr, hp, startDispatch])
      · exact Or.inr (by simp [step, hr])
  | complete tok out t =>
      by_cases hc : s.st.activeController = some tok
      · cases out with
        | success v status => exact Or.inr (by simp [step, hc])
        | failure e => exact Or.inr (by simp [step, hc])
      · exact Or.inr (by simp [step, hc])
  | notifyCheck t =>
      by_cases hb1 : (s.st.phase = .resolved && !s.firedResolve) = true
      · exact Or.inr (by simp [step, hb1])
      · by_cases hb2 : (s.st.phase = .failed && !s.firedFailed) = true
        · refine Or.inr ⟨by simp [step, hb1, hb2], ?_, by simp [step, hb1, hb2]⟩
          intro hf
          simp only [Bool.and_eq_true, decide_eq_true_eq,
            Bool.not_eq_true'] at hb2
          simp [step, hb1, hb2.1, hb2.2, hf]
        · exact Or.inr (by simp [step, hb1, hb2])

/-- Parameter lookup is invariant under permuting the mapping, provided
the mapping binds each name at most once. -/
lemma lookupParam_perm (key : String) :
    ∀ {p q : List (String × String)}, p.Perm q →
      (p.map Prod.fst).Nodup → lookupParam p key = lookupParam q key := by
  intro p q h
  induction h with
  | nil => exact fun _ => rfl
  | cons x h ih =>
      intro hn
      obtain ⟨k, v⟩ := x
      by_cases hk : k = key
      · simp [lookupParam, hk]
      · simp only [lookupParam, if_neg hk]
        exact ih (List.nodup_cons.mp (by simpa using hn)).2
  | swap x y l =>
      intro hn
      obtain ⟨k1, v1⟩ := x
      obtain ⟨k2, v2⟩ := y
      have hne : k2 ≠ k1 := by
        simp only [List.map_cons, List.nodup_cons, List.mem_cons] at hn
        exact fun hx => hn.1 (Or.inl hx)
      by_cases hk2 : k2 = key
      · have hk1 : ¬k1 = key := fun hx => hne (hk2.trans hx.symm)
        simp [lookupParam, hk1, hk2]
      · by_cases hk1 : k1 = key
        · simp [lookupParam, hk1, hk2]
        · simp [lookupParam, hk1, hk2]
  | trans h1 h2 ih1 ih2 =>
      intro hn
      rw [ih1 hn, ih2 (((h1.map Prod.fst).nodup_iff).mp hn)]

/-- Segment substitution depends on the parameter mapping only through
lookup. -/
lemma substSegment_congrParams {p q : List (String × String)}
    (h : ∀ key, lookupParam p key = lookupParam q key) (seg : List Char) :
    substSegment p seg = substSegment q seg := by
  simp only [substSegment, h]

/-- URL substitution is order-independent: permuting a duplicate-free
parameter mapping leaves the substituted URL and its warnings unchanged. -/
lemma setURLParams_perm (url : String) {p q : List (String × String)}
    (hperm : p.Perm q) (hn : (p.map Prod.fst).Nodup) :
    setURLParams url p = setURLParams url q := by
  have h : ∀ key, lookupParam p key = lookupParam q key :=
    fun key => lookupParam_perm key hperm hn
  have hs : substSegment p = substSegment q :=
    funext fun seg => substSegment_congrParams h seg
  simp only [setURLParams, hs]

/-- A fired retry timer whose scheduled time is not armed is ignored. -/
lemma step_retryFire_of_none (cfg : RequestConfig) (s : EngineState)
    (t : Nat) (h : s.retryAt = none) : step cfg s (.retryFire t) = s := by
  simp [step, h]

/-- A notification pass never performs a transport call. -/
lemma transportCalls_notifyCheck (cfg : RequestConfig) (s : EngineState)
    (t : Nat) : (step cfg s (.notifyCheck t)).transportCalls =
      s.transportCalls := by
  by_cases hb1 : (s.st.phase = .resolved && !s.firedResolve) = true
  · simp [step, hb1]
  · by_cases hb2 : (s.st.phase = .failed && !s.firedFailed) = true
    · simp [step, hb1, hb2]
    · simp [step, hb1, hb2]

/-- A transport completion never performs a transport call. -/
lemma transportCalls_complete (cfg : RequestConfig) (s : EngineState)
    (tok : Nat) (out : Outcome) (t : Nat) :
    (step cfg s (.complete tok out t)).transportCalls = s.transportCalls := by
  by_cases hc : s.st.activeController = some tok
  · cases out with
    | success v status => simp [step, hc]
    | failure e => simp [step, hc]
  · simp [step, hc]

/-- C1: in every reachable engine state of one request identity at most
one transport call is in flight, that bound is preserved by every further
event, and a trigger of any kind arriving while the identity is pending
performs no second transport call: the step is folded into the existing
pending execution (it is the identity on the state). -/
theorem at_most_one_inflight (cfg : RequestConfig) (s : EngineState)
    (k : TriggerKind) (t : Nat) (ev : Event) (h : Reachable cfg s) :
    s.inflight.length ≤ 1 ∧
    (step cfg s ev).inflight.length ≤ 1 ∧
    (s.st.phase = .pending →
      (step cfg s (.trigger k t)).transportCalls = s.transportCalls ∧
      step cfg s (.trigger k t) = s) := by
  refine ⟨goodState_length_le_one s (goodState_reachable cfg s h),
    goodState_length_le_one _
      (goodState_step cfg s ev (goodState_reachable cfg s h)), ?_⟩
  intro hp
  exact ⟨by simp [step, hp], by simp [step, hp]⟩

/-- C1 witness: after one dispatch the identity is pending, a focus
trigger is folded, and the in-flight bound holds. -/
theorem at_most_one_inflight_witness :
    (step defaultConfig initState (.trigger .manual 0)).inflight.length ≤ 1 ∧
    (step defaultConfig (step defaultConfig initState (.trigger .manual 0))
        (.trigger .focus 5)).inflight.length ≤ 1 ∧
    ((step defaultConfig initState (.trigger .manual 0)).st.phase = .pending →
      (step defaultConfig (step defaultConfig initState (.trigger .manual 0))
          (.trigger .focus 5)).transportCalls =
        (step defaultConfig initState (.trigger .manual 0)).transportCalls ∧
      step defaultConfig (step defaultConfig initState (.trigger .manual 0))
          (.trigger .focus 5) =
        step defaultConfig initState (.trigger .manual 0)) :=
  at_most_one_inflight defaultConfig
    (step defaultConfig initState (.trigger .manual 0)) .focus 5
    (.trigger .focus 5)
    (Reachable.next initState (.trigger .manual 0) Reachable.init)

/-- C2: a transport completion whose token is no longer the active
controller (a superseded or cancelled dispatch) never mutates the shared
RequestState; in the concrete supersession run the stale success of the
superseded token 0 is discarded and the final data, status code and phase
reflect only the newest dispatch (token 1). -/
theorem superseded_completion_discarded (cfg : RequestConfig)
    (s : EngineState) (tok : Nat) (out : Outcome) (t : Nat)
    (h : ¬s.st.activeController = some tok) :
    (step cfg s (.complete tok out t)).st = s.st ∧
    supersedeRun.st.activeController = some 1 ∧
    (step defaultConfig supersedeRun
        (.complete 0 (.success (.str "stale") 200) 2)).st = supersedeRun.st ∧
    (run defaultConfig supersedeRun
        [.complete 0 (.success (.str "stale") 200) 2,
         .complete 1 (.success (.str "fresh") 201) 3]).st.data
      = some (.str "fresh") ∧
    (run defaultConfig supersedeRun
        [.complete 0 (.success (.str "stale") 200) 2,
         .complete 1 (.success (.str "fresh") 201) 3]).st.statusCode
      = some 201 ∧
    (run defaultConfig supersedeRun
        [.complete 0 (.success (.str "stale") 200) 2,
         .complete 1 (.success (.str "fresh") 201) 3]).st.phase
      = .resolved := by
  refine ⟨?_, by decide, rfl, rfl, by decide, by decide⟩
  cases out with
  | success v status => simp [step, h]
  | failure e => simp [step, h]

/-- C2 witness: the discard lemma applied to the concrete superseded
state and token. -/
theorem superseded_completion_discarded_witness :
    (step defaultConfig supersedeRun
        (.complete 0 (.success (.str "stale") 200) 2)).st
      = supersedeRun.st :=
  (superseded_completion_discarded defaultConfig supersedeRun 0
    (.success (.str "stale") 200) 2 (by decide)).1

/-- C3: the 3-attempt failing run performs exactly 3 transport
invocations, spaced by `attemptInterval`, leaving `phase = failed`,
`online = false`, `attemptCount = 3` and no armed retry; afterwards no
retry-timer fire, notification pass or completion event performs another
transport invocation — only a new external trigger can. -/
theorem attempts_exhaustion (t : Nat) (tok : Nat) (out : Outcome) :
    attemptsRun.transportCalls = 3 ∧
    attemptsRun.callTimes = [0, 2, 4] ∧
    attemptsRun.callTimes =
      [0, 0 + cfgAttempts.attemptInterval,
       0 + cfgAttempts.attemptInterval + cfgAttempts.attemptInterval] ∧
    attemptsRun.st.phase = .failed ∧
    attemptsRun.st.online = false ∧
    attemptsRun.st.attemptCount = 3 ∧
    attemptsRun.retryAt = none ∧
    (step cfgAttempts attemptsRun (.retryFire t)).transportCalls = 3 ∧
    (step cfgAttempts attemptsRun (.notifyCheck t)).transportCalls = 3 ∧
    (step cfgAttempts attemptsRun (.complete tok out t)).transportCalls
      = 3 := by
  refine ⟨by decide, by decide, by decide, by decide, by decide, by decide,
    by decide, ?_, ?_, ?_⟩
  · rw [step_retryFire_of_none cfgAttempts attemptsRun t (by decide)]
    decide
  · rw [transportCalls_notifyCheck]
    decide
  · rw [transportCalls_complete]
    decide

/-- C4: with a `maxCacheAge` policy, a successful completion resolves the
phase, resets `attemptCount` to 0 and sets `expiresAt` to the completion
time plus `maxCacheAge`; an automatic dispatch trigger arriving before
`expiresAt` is skipped entirely — the step is the identity, so it performs
zero transport invocations, makes no transition to pending and serves the
cached data as-is. -/
theorem maxCacheAge_policy (cfg : RequestConfig) (s : EngineState)
    (tok : Nat) (v : SerialVal) (status t t2 : Nat) (k : TriggerKind)
    (hage : 0 < cfg.maxCacheAge) (hc : s.st.activeController = some tok)
    (hk : k.isAutomatic = true) (ht : t2 < t + cfg.maxCacheAge) :
    (step cfg s (.complete tok (.success v status) t)).st.phase
      = .resolved ∧
    (step cfg s (.complete tok (.success v status) t)).st.attemptCount
      = 0 ∧
    (step cfg s (.complete tok (.success v status) t)).st.expiresAt
      = some (t + cfg.maxCacheAge) ∧
    step cfg (step cfg s (.complete tok (.success v status) t))
        (.trigger k t2)
      = step cfg s (.complete tok (.success v status) t) := by
  have hph : (step cfg s (.complete tok (.success v status) t)).st.phase
      = .resolved := by simp [step, hc]
  have hfresh :
      isFresh (step cfg s (.complete tok (.success v status) t)) t2
        = true := by
    simp [isFresh, step, hc, hage, ht]
  refine ⟨hph, by simp [step, hc], by simp [step, hc, hage], ?_⟩
  generalize hS : step cfg s (.complete tok (.success v status) t) = s1
    at hph hfresh ⊢
  simp [step, hph, hfresh, hk]

/-- C4 witness: a pending probe with `maxCacheAge = 5` resolves at time
10; a focus trigger at time 12 is short-circuited by the fresh cache. -/
theorem maxCacheAge_policy_witness :
    (step cfgAge pendingProbe
        (.complete 0 (.success (.str "v") 200) 10)).st.phase = .resolved ∧
    (step cfgAge pendingProbe
        (.complete 0 (.success (.str "v") 200) 10)).st.attemptCount = 0 ∧
    (step cfgAge pendingProbe
        (.complete 0 (.success (.str "v") 200) 10)).st.expiresAt
      = some (10 + cfgAge.maxCacheAge) ∧
    step cfgAge
        (step cfgAge pendingProbe (.complete 0 (.success (.str "v") 200) 10))
        (.trigger .focus 12)
      = step cfgAge pendingProbe (.complete 0 (.success (.str "v") 200) 10) :=
  maxCacheAge_policy cfgAge pendingProbe 0 (.str "v") 200 10 12 .focus
    (by decide) (by decide) (by decide) (by decide)

/-- C5: `resolve` returns an explicit `config.id` verbatim (any
serializable value); otherwise the identity is the method and the raw URL
template joined by one space, with path parameters left unsubstituted in
the identity even though they are substituted into the dispatched URL
(`GET /todos/[id]` vs `/todos/3`). -/
theorem resolve_identity (cfg : RequestConfig) (v : SerialVal) :
    (cfg.id = some v → resolve cfg = v) ∧
    (cfg.id = none →
      resolve cfg = .str (cfg.method ++ " " ++ cfg.url)) ∧
    resolve todoCfg = .str "GET /todos/[id]" ∧
    dispatchedUrlOf todoCfg = "/todos/3" := by
  refine ⟨fun h => by simp [resolve, h], fun h => by simp [resolve, h],
    rfl, by decide⟩

/-- C5 witness: an explicit id is returned verbatim; without one the
identity is method plus URL template. -/
theorem resolve_identity_witness :
    resolve { defaultConfig with id := some (.str "API") } = .str "API" ∧
    resolve { defaultConfig with url := "/api" } = .str "GET /api" :=
  ⟨(resolve_identity { defaultConfig with id := some (.str "API") }
      (.str "API")).1 rfl,
   (resolve_identity { defaultConfig with url := "/api" } .null).2.1 rfl⟩

/-- C6: URL substitution replaces bracketed and colon-prefixed
placeholders from the mapping, handles a mix of both syntaxes in one URL,
and is order-independent: permuting a duplicate-free parameter mapping
never changes the result; in particular
`setURLParams "api/[path]/:id" {path: books, id: 10} = "api/books/10"`
and `/todos/[id]` with `{id: 3}` yields `/todos/3`. -/
theorem setURLParams_substitution (url : String)
    (p q : List (String × String)) (hperm : p.Perm q)
    (hn : (p.map Prod.fst).Nodup) :
    setURLParams url p = setURLParams url q ∧
    (setURLParams "api/[path]/:id" [("path", "books"), ("id", "10")]).1
      = "api/books/10" ∧
    (setURLParams "api/[path]/:id" [("id", "10"), ("path", "books")]).1
      = "api/books/10" ∧
    (setURLParams "/todos/[id]" [("id", "3")]).1 = "/todos/3" ∧
    (setURLParams "/[resource]/:id" [("resource", "todos"), ("id", "3")]).1
      = "/todos/3" :=
  ⟨setURLParams_perm url hperm hn, by decide, by decide, by decide,
   by decide⟩

/-- C6 witness: the mixed-syntax URL substituted under the mapping and its
permutation. -/
theorem setURLParams_substitution_witness :
    setURLParams "api/[path]/:id" [("path", "books"), ("id", "10")]
      = setURLParams "api/[path]/:id" [("id", "10"), ("path", "books")] :=
  (setURLParams_substitution "api/[path]/:id"
    [("path", "books"), ("id", "10")] [("id", "10"), ("path", "books")]
    (List.Perm.swap ("id", "10") ("path", "books") []) (by decide)).1

/-- C7: a placeholder missing from the parameter mapping is left
unsubstituted and emits exactly one ConfigurationWarning, and the dispatch
still proceeds: the engine performs the transport call for the unchanged
URL, moves to pending and records no error. -/
theorem missing_param_nonfatal (params : List (String × String))
    (seg : List Char) (hs : startsWithChar '[' seg = true)
    (he : endsWithChar ']' seg = true)
    (hm : lookupParam params ⟨(seg.drop 1).dropLast⟩ = none) :
    substSegment params seg = (seg, [⟨⟨(seg.drop 1).dropLast⟩⟩]) ∧
    setURLParams "/todos/[id]" [] = ("/todos/[id]", [⟨"id"⟩]) ∧
    (step cfgMissingParam initState (.trigger .manual 0)).transportCalls
      = 1 ∧
    (step cfgMissingParam initState (.trigger .manual 0)).st.phase
      = .pending ∧
    (step cfgMissingParam initState (.trigger .manual 0)).warnings
      = [⟨"id"⟩] ∧
    (step cfgMissingParam initState (.trigger .manual 0)).st.error
      = none ∧
    (step cfgMissingParam initState (.trigger .manual 0)).dispatchedUrl
      = "/todos/[id]" := by
  have hm2 : lookupParam params ⟨seg.tail.dropLast⟩ = none := by
    simpa [List.drop_one] using hm
  refine ⟨by simp [substSegment, hs, he, hm2], by decide, by decide,
    by decide, by decide, rfl, by decide⟩

/-- C7 witness: the `[id]` segment with an empty mapping is left as-is
with one warning. -/
theorem missing_param_nonfatal_witness :
    substSegment [] ("[id]".data)
      = ("[id]".data, [⟨⟨(("[id]".data.drop 1).dropLast)⟩⟩]) :=
  (missing_param_nonfatal [] ("[id]".data) (by decide) (by decide)
    (by decide)).1

/-- C8: in every reachable state each one-shot side channel (resolved and
failed) has fired at most once per resolution generation; once its marker
is set, a further notification pass (re-render or re-subscription) does
not fire it again; and the markers reset exactly when a new dispatch
begins: a step that opens a new generation clears both, while a step that
does not open one never clears a set marker. -/
theorem side_channel_once_per_generation (cfg : RequestConfig)
    (s : EngineState) (t : Nat) (ev : Event) (h : Reachable cfg s) :
    s.resolveRuns ≤ s.gen ∧ s.failedRuns ≤ s.gen ∧
    (s.firedResolve = true →
      (step cfg s (.notifyCheck t)).resolveRuns = s.resolveRuns) ∧
    (s.firedFailed = true →
      (step cfg s (.notifyCheck t)).failedRuns = s.failedRuns) ∧
    ((step cfg s ev).gen = s.gen + 1 →
      (step cfg s ev).firedResolve = false ∧
      (step cfg s ev).firedFailed = false) ∧
    (s.firedResolve = true → (step cfg s ev).gen = s.gen →
      (step cfg s ev).firedResolve = true) := by
  obtain ⟨h1, h2, _, _, _⟩ := onceState_reachable cfg s h
  refine ⟨h1, h2, ?_, ?_, ?_, ?_⟩
  · intro hf
    by_cases hb2 : (s.st.phase = .failed && !s.firedFailed) = true
    · simp [step, hf, hb2]
    · simp [step, hf, hb2]
  · intro hf
    by_cases hb1 : (s.st.phase = .resolved && !s.firedResolve) = true
    · simp [step, hb1]
    · simp [step, hf, hb1]
  · intro hgen
    rcases step_gen_dichotomy cfg s ev with ⟨_, hf1, hf2⟩ | ⟨hg, _, _⟩
    · exact ⟨hf1, hf2⟩
    · rw [hg] at hgen
      exact absurd hgen (Nat.ne_of_lt (Nat.lt_succ_self s.gen))
  · intro hfr hgen
    rcases step_gen_dichotomy cfg s ev with ⟨hg, _, _⟩ | ⟨_, hf1, _⟩
    · rw [hg] at hgen
      exact absurd hgen (Nat.ne_of_gt (Nat.lt_succ_self s.gen))
    · exact hf1 hfr

/-- C8 witness: after one resolution whose resolved side channel already
fired, a second notification pass does not fire it again, and a new
manual dispatch resets the markers. -/
theorem side_channel_once_per_generation_witness :
    resolvedFiredRun.resolveRuns ≤ resolvedFiredRun.gen ∧
    resolvedFiredRun.failedRuns ≤ resolvedFiredRun.gen ∧
    (resolvedFiredRun.firedResolve = true →
      (step defaultConfig resolvedFiredRun (.notifyCheck 2)).resolveRuns
        = resolvedFiredRun.resolveRuns) ∧
    (resolvedFiredRun.firedFailed = true →
      (step defaultConfig resolvedFiredRun (.notifyCheck 2)).failedRuns
        = resolvedFiredRun.failedRuns) ∧
    ((step defaultConfig resolvedFiredRun (.trigger .manual 3)).gen
        = resolvedFiredRun.gen + 1 →
      (step defaultConfig resolvedFiredRun (.trigger .manual 3)).firedResolve
        = false ∧
      (step defaultConfig resolvedFiredRun (.trigger .manual 3)).firedFailed
        = false) ∧
    (resolvedFiredRun.firedResolve = true →
      (step defaultConfig resolvedFiredRun (.trigger .manual 3)).gen
        = resolvedFiredRun.gen →
      (step defaultConfig resolvedFiredRun (.trigger .manual 3)).firedResolve
        = true) :=
  side_channel_once_per_generation defaultConfig resolvedFiredRun 2
    (.trigger .manual 3)
    (Reachable.next
      (step defaultConfig
        (step defaultConfig initState (.trigger .manual 0))
        (.complete 0 (.success .null 200) 1))
      (.notifyCheck 1)
      (Reachable.next
        (step defaultConfig initState (.trigger .manual 0))
        (.complete 0 (.success .null 200) 1)
        (Reachable.next initState (.trigger .manual 0) Reachable.init)))

/-- C9: `mutateData` applies the updater to `data` synchronously — the new
data is in place in the resulting state even when a revalidation dispatch
follows — performs no transport call of its own, and with
`revalidateAfter = true` on a non-pending identity triggers exactly one
standard dispatch. -/
theorem mutate_local_then_revalidate (cfg : RequestConfig)
    (s : EngineState) (updater : Option SerialVal → SerialVal) (t : Nat)
    (rv : Bool) (hp : s.st.phase ≠ .pending) :
    (mutateData cfg s updater rv t).st.data
      = some (updater s.st.data) ∧
    (mutateData cfg s updater false t).transportCalls
      = s.transportCalls ∧
    (mutateData cfg s updater false t).st.phase = s.st.phase ∧
    (mutateData cfg s updater true t).transportCalls
      = s.transportCalls + 1 ∧
    (mutateData cfg s updater true t).st.phase = .pending := by
  refine ⟨?_, rfl, rfl, ?_, ?_⟩
  · cases rv with
    | false => rfl
    | true =>
        simp [mutateData, step, hp, TriggerKind.isAutomatic, startDispatch]
  · simp [mutateData, step, hp, TriggerKind.isAutomatic, startDispatch]
  · simp [mutateData, step, hp, TriggerKind.isAutomatic, startDispatch]

/-- C9 witness: mutating the idle initial state updates `data` at once and
the follow-up revalidation performs exactly one transport call. -/
theorem mutate_local_then_revalidate_witness :
    (mutateData defaultConfig initState (fun _ => .str "new") true
        7).st.data = some (.str "new") ∧
    (mutateData defaultConfig initState (fun _ => .str "new") false
        7).transportCalls = initState.transportCalls ∧
    (mutateData defaultConfig initState (fun _ => .str "new") false
        7).st.phase = initState.st.phase ∧
    (mutateData defaultConfig initState (fun _ => .str "new") true
        7).transportCalls = initState.transportCalls + 1 ∧
    (mutateData defaultConfig initState (fun _ => .str "new") true
        7).st.phase = .pending :=
  mutate_local_then_revalidate defaultConfig initState
    (fun _ => .str "new") 7 true (by decide)

/-- C10: `maxCacheAge` defaults to 0 ms, in which case a successful
resolution leaves the exposed expiration `none` (null) and cached data is
never considered fresh: any dispatch trigger on a non-pending identity
performs a transport call and moves to pending instead of being
short-circuited by the cache-age policy. -/
theorem default_maxCacheAge_always_revalidates (cfg : RequestConfig)
    (s s2 : EngineState) (tok : Nat) (v : SerialVal) (status t t2 : Nat)
    (k : TriggerKind) (h0 : cfg.maxCacheAge = 0)
    (hc : s.st.activeController = some tok)
    (h2 : s2.st.phase ≠ .pending) (he : s2.st.expiresAt = none) :
    defaultConfig.maxCacheAge = 0 ∧
    (step cfg s (.complete tok (.success v status) t)).st.expiresAt
      = none ∧
    (step cfg s2 (.trigger k t2)).transportCalls
      = s2.transportCalls + 1 ∧
    (step cfg s2 (.trigger k t2)).st.phase = .pending := by
  refine ⟨rfl, by simp [step, hc, h0], ?_, ?_⟩
  · simp [step, h2, isFresh, he, startDispatch]
  · simp [step, h2, isFresh, he, startDispatch]

/-- C10 witness: under the default configuration a resolution carries no
expiration and a later focus trigger on the resolved state revalidates. -/
theorem default_maxCacheAge_always_revalidates_witness :
    defaultConfig.maxCacheAge = 0 ∧
    (step defaultConfig pendingProbe
        (.complete 0 (.success (.str "v") 200) 10)).st.expiresAt = none ∧
    (step defaultConfig initState (.trigger .focus 20)).transportCalls
      = initState.transportCalls + 1 ∧
    (step defaultConfig initState (.trigger .focus 20)).st.phase
      = .pending :=
  default_maxCacheAge_always_revalidates defaultConfig pendingProbe
    initState 0 (.str "v") 200 10 20 .focus rfl (by decide) (by decide) rfl

end HttpReact
